import Mathlib

/-!
Verification of the taskmgmt REST backend core: JWT-style auth middleware,
role-gated authorization, and the task list filter/sort/paginate query builder.
Definitions are shallow embeddings of the JavaScript handlers in
`src/backend/src/api/*.js` and the handler variants in `src/unnamed/part_003`,
`src/unnamed/part_005` and `src/unnamed/part_006`.  JavaScript host primitives
(`Number(...)` coercion, `new Date(...)` parsing and the password hash) are
passed in as function parameters; `none` models `NaN` / `Invalid Date`.
The store (Prisma) is modelled as an in-memory list of records.
-/

set_option maxRecDepth 8192

namespace Taskmgmt

/-! ## Data model (from prisma schema and handler field usage) -/

/-- User record: `id, email, password (hash), name, role` as used by the
handlers (`role` added by the migration, default `"USER"`). -/
structure User where
  id : Int
  email : String
  password : String
  name : String
  role : String
  deriving DecidableEq, Repr

/-- Task record, fields as in `prisma/schema.prisma` plus the
`priority`/`recurring` columns used by the `part_005`/`part_006` handlers.
Timestamps are modelled as `Nat` epoch instants; `dueDate` is nullable. -/
structure Task where
  id : Int
  title : String
  description : String
  dueDate : Option Nat
  status : String
  priority : String
  recurring : String
  userId : Int
  createdAt : Nat
  deriving DecidableEq, Repr

/-- Principal attached to `req.user` by the auth middlewares. -/
structure Principal where
  id : Int
  name : String
  email : String
  role : String
  deriving DecidableEq, Repr

/-- Claims carried by a decoded token: `{ userId, role }`
(`jwt.sign({ userId: user.id, role: user.role }, ...)` in auth.js). -/
structure TokenClaims where
  userId : Int
  role : String
  deriving DecidableEq, Repr

/-! ## JavaScript helper semantics -/

/-- JavaScript `v || d` for an optional string `v`: an absent value
(`undefined`) and the empty string are falsy and yield `d`. -/
def jsOrStr (v : Option String) (d : String) : String :=
  match v with
  | some s => if s = "" then d else s
  | none => d

/-- JavaScript truthiness filter on an optional string: `some ""` (falsy)
behaves like an absent value in `if (query.x)` guards. -/
def jsStr (v : Option String) : Option String :=
  match v with
  | some s => if s = "" then none else some s
  | none => none

/-- JavaScript falsiness of an optional string (`!v`). -/
def jsFalsy (v : Option String) : Bool :=
  match v with
  | some s => s = ""
  | none => true

/-- Model of JavaScript `Number(...)` on nonnegative decimal integer strings;
`none` models `NaN`.  Used only to instantiate witnesses: the theorems
quantify over the coercion function. -/
def jsNumber (s : String) : Option Int :=
  if s.toList ≠ [] ∧ s.toList.all Char.isDigit then
    some (s.toList.foldl (fun n c => n * 10 + ((c.toNat : Int) - 48)) 0)
  else none

/-- Model of JavaScript `new Date(...).getTime()` used only to instantiate
witnesses (digit strings parse, everything else is an invalid date);
the theorems quantify over the parse function. -/
def jsDate (s : String) : Option Nat :=
  (jsNumber s).bind (fun n => if 0 ≤ n then some n.toNat else none)

/-- Split a character list at every occurrence of `sep`, JavaScript
`String.prototype.split` semantics (`"a  b"` gives `["a","","b"]`). -/
def splitChars (sep : Char) : List Char → List Char → List (List Char)
  | [], acc => [acc.reverse]
  | c :: cs, acc =>
    if c == sep then acc.reverse :: splitChars sep cs []
    else splitChars sep cs (c :: acc)

/-! ## Auth middleware (auth.js / profile.js) -/

/-- Token extraction `authHeader && authHeader.split(' ')[1]` followed by the
`if (!token)` falsiness check: the second space-separated component of the
header, with the empty string (falsy) treated as absent. -/
def extractToken (header : Option String) : Option String :=
  match header with
  | none => none
  | some h =>
    match (splitChars ' ' h.toList []).get? 1 with
    | none => none
    | some t => if t = [] then none else some (String.mk t)

/-- Outcome of an auth middleware run: rejection with an HTTP status, or
success attaching a principal to the request. -/
inductive AuthResult where
  | reject (status : Nat)
  | success (p : Principal)
  deriving DecidableEq, Repr

/-- `authToken` of `src/backend/src/api/auth.js` lines 13-48: no token ⇒ 401;
token verification failure ⇒ 403; decoded userId absent from the store ⇒ 403;
otherwise attach `{ id, name, email, role: decoded.role }`.
`verify` abstracts `jwt.verify` (`none` models a thrown verification error). -/
def authTokenAuth (verify : String → Option TokenClaims) (store : List User)
    (header : Option String) : AuthResult :=
  match extractToken header with
  | none => .reject 401
  | some tok =>
    match verify tok with
    | none => .reject 403
    | some decoded =>
      match store.find? (fun u => u.id == decoded.userId) with
      | none => .reject 403
      | some user => .success ⟨user.id, user.name, user.email, decoded.role⟩

/-- `authToken` of `src/backend/src/api/profile.js` lines 13-31: identical
control flow, but `req.user = user` attaches the fetched store record
verbatim, so the principal's role is the store's current role. -/
def authTokenProfile (verify : String → Option TokenClaims) (store : List User)
    (header : Option String) : AuthResult :=
  match extractToken header with
  | none => .reject 401
  | some tok =>
    match verify tok with
    | none => .reject 403
    | some decoded =>
      match store.find? (fun u => u.id == decoded.userId) with
      | none => .reject 403
      | some user => .success ⟨user.id, user.name, user.email, user.role⟩

/-! ## Role guard and task deletion (part_006 lines 10-16, 177-197, 242) -/

/-- `deleteTask` handler of `src/unnamed/part_006` lines 177-197: look up the
task by id; absent ⇒ 404 and the store untouched; present ⇒ delete it and
answer 200.  Returns the HTTP status and the resulting store. -/
def deleteTask (store : List Task) (id : Int) : Nat × List Task :=
  match store.find? (fun t => t.id == id) with
  | none => (404, store)
  | some _ => (200, store.filter (fun t => !(t.id == id)))

/-- `router.delete('/:id', checkAdmin, deleteTask)` of `src/unnamed/part_006`
line 242 composed with `checkAdmin` (lines 10-16): a principal whose role is
not `ADMIN` is rejected with 403 before the handler runs; otherwise the
request falls through to `deleteTask` unchanged. -/
def deleteTaskRoute (p : Principal) (store : List Task) (id : Int) :
    Nat × List Task :=
  if p.role ≠ "ADMIN" then (403, store)
  else deleteTask store id

/-! ## getTaskById (part_006 lines 90-108 / tasks.js lines 50-68) -/

/-- `getTaskById`: the guard `if (!id || isNaN(id)) return 400` runs before
any store access; only a numeric id reaches `findUnique`.  The middle
component records whether the store was queried; the store itself is returned
to state that the handler never modifies it (`findUnique` is its only store
operation).  `toNumber` abstracts the JavaScript `Number(...)`/`isNaN`
coercion (`none` models `NaN`). -/
def getTaskById (toNumber : String → Option Int) (store : List Task)
    (idStr : String) : Nat × Bool × List Task :=
  if idStr = "" then (400, false, store)
  else
    match toNumber idStr with
    | none => (400, false, store)
    | some n =>
      match store.find? (fun t => t.id == n) with
      | some _ => (200, true, store)
      | none => (404, true, store)

/-! ## Registration and role update (auth.js lines 61-90, part_003 lines 95-116) -/

/-- Body of a registration request (`{ email, password, name, role }`),
fields optional as in JavaScript destructuring. -/
structure RegisterBody where
  email : Option String
  password : Option String
  name : Option String
  role : Option String
  deriving DecidableEq, Repr

/-- `register` of `src/backend/src/api/auth.js` lines 61-90: missing (or
falsy) `email`/`password`/`name` ⇒ 400 with the store untouched; otherwise a
user is created with `role: role || 'USER'` — any truthy role supplied in the
unauthenticated request body is persisted verbatim.  `hash` abstracts
`bcrypt.hash`; the store assigns the next id. -/
def register (hash : String → String) (body : RegisterBody)
    (store : List User) : Nat × List User :=
  if jsFalsy body.email || jsFalsy body.password || jsFalsy body.name then
    (400, store)
  else
    (201, store ++ [{ id := (store.length : Int) + 1,
                      email := body.email.getD "",
                      password := hash (body.password.getD ""),
                      name := body.name.getD "",
                      role := jsOrStr body.role "USER" }])

/-- `updateUserRole` of `src/unnamed/part_003` lines 95-116: a non-ADMIN
caller is rejected with 403 and the store is untouched; an ADMIN caller has
their own record's role updated to the requested value. -/
def updateUserRole (p : Principal) (store : List User) (newRole : String) :
    Nat × List User :=
  if p.role ≠ "ADMIN" then (403, store)
  else (200, store.map (fun u => if u.id == p.id then { u with role := newRole } else u))

/-! ## Token codec -/

/-- Error cases of token verification (spec taxonomy for the codec). -/
inductive VerifyError where
  | invalidSignature
  | expired
  | malformed
  deriving DecidableEq, Repr

/-- Signed token: the claims `{ userId, role }` from
`jwt.sign({ userId: user.id, role: user.role }, secret, { expiresIn: '1h' })`
in auth.js, plus issuance/expiry instants and the signing secret. -/
structure SignedToken where
  userId : Int
  role : String
  issuedAt : Nat
  expiresAt : Nat
  sig : String
  deriving DecidableEq, Repr

/-- Modelled from the spec: the Token Codec `issue` operation (§4.1) is the
external `jsonwebtoken` library's `jwt.sign`, not code under `src/`; the claim
payload `{ userId, role }` and the fixed 1-hour expiry offset are taken from
the call sites in auth.js. -/
def issueToken (secret : String) (u : Int) (r : String) (now : Nat) :
    SignedToken :=
  { userId := u, role := r, issuedAt := now, expiresAt := now + 3600,
    sig := secret }

/-- Modelled from the spec: the Token Codec `verify` operation (§4.1) is the
external `jsonwebtoken` library's `jwt.verify`, not code under `src/`;
it fails with `InvalidSignature` on a secret mismatch, with `Expired` once
the current time reaches `expiresAt`, and otherwise returns exactly the two
claims. -/
def verifyToken (secret : String) (t : SignedToken) (now : Nat) :
    Except VerifyError TokenClaims :=
  if t.sig ≠ secret then .error .invalidSignature
  else if t.expiresAt ≤ now then .error .expired
  else .ok ⟨t.userId, t.role⟩

/-! ## Partial task update (part_006 lines 145-174, part_005 lines 122-141) -/

/-- Body of a task update request; every field optional, as destructured from
`req.body`. -/
structure TaskBody where
  title : Option String
  description : Option String
  dueDate : Option String
  status : Option String
  recurring : Option String
  priority : Option String
  deriving DecidableEq, Repr

/-- Field application of `updateTask` in `src/unnamed/part_006` lines
157-166: each field is `field || existingTask.field` (a falsy present value
also keeps the old one); `dueDate` is `dueDate ? new Date(dueDate) :
existingTask.dueDate`, with `parseDate` abstracting `new Date` (an
unparseable present value is modelled as clearing — outside the claims'
scope, which concern absent fields). -/
def applyUpdateExplicit (parseDate : String → Option Nat) (b : TaskBody)
    (t : Task) : Task :=
  { t with
    title := jsOrStr b.title t.title,
    description := jsOrStr b.description t.description,
    dueDate := match b.dueDate with
      | some s => if s = "" then t.dueDate else parseDate s
      | none => t.dueDate,
    status := jsOrStr b.status t.status,
    recurring := jsOrStr b.recurring t.recurring,
    priority := jsOrStr b.priority t.priority }

/-- Field application of `updateTask` in `src/unnamed/part_005` lines
131-134: `data: { ...req.body }` spreads the body, so Prisma updates exactly
the present fields (a present empty string is written verbatim) and leaves
absent fields untouched. -/
def applyUpdateSpread (parseDate : String → Option Nat) (b : TaskBody)
    (t : Task) : Task :=
  { t with
    title := b.title.getD t.title,
    description := b.description.getD t.description,
    dueDate := match b.dueDate with
      | some s => parseDate s
      | none => t.dueDate,
    status := b.status.getD t.status,
    recurring := b.recurring.getD t.recurring,
    priority := b.priority.getD t.priority }

/-! ## Sort field resolution (three list-handler variants) -/

/-- The `orderOptions` object of `src/unnamed/part_006` lines 23-30: six keys,
each mapped to itself. -/
def orderOptionsFull : List (String × String) :=
  [("dueDate", "dueDate"), ("createdAt", "createdAt"), ("status", "status"),
   ("userId", "userId"), ("recurring", "recurring"), ("priority", "priority")]

/-- The `orderOptions` object of `src/backend/src/api/tasks.js` lines 21-25:
only three keys. -/
def orderOptionsThree : List (String × String) :=
  [("dueDate", "dueDate"), ("createdAt", "createdAt"), ("status", "status")]

/-- Sort field sent to the store by `getAllTasks` in `src/unnamed/part_006`
line 52: destructuring default `sortBy = 'createdAt'`, then
`orderOptions[sortBy] || 'createdAt'`. -/
def sortFieldFull (sortBy : Option String) : String :=
  jsOrStr (orderOptionsFull.lookup (sortBy.getD "createdAt")) "createdAt"

/-- Sort field sent to the store by `getAllTasks` in
`src/backend/src/api/tasks.js` line 31: no destructuring default,
`orderOptions[sortBy] || 'createdAt'` over the three-key object. -/
def sortFieldThree (sortBy : Option String) : String :=
  jsOrStr (sortBy.bind orderOptionsThree.lookup) "createdAt"

/-- Sort field sent to the store by `getAllTasks` in `src/unnamed/part_005`
line 56: destructuring default `sortBy = 'createdAt'`, then the computed key
`orderBy: { [sortBy]: order }` forwards the value verbatim. -/
def sortFieldVerbatim (sortBy : Option String) : String :=
  sortBy.getD "createdAt"

/-! ## Search filter construction (part_005 lines 19-46, part_006 lines 33-50) -/

/-- One member of the Prisma `where` disjunction built for a search term.
`userIdEquals` carries `Number(search)` with `none` modelling `NaN`. -/
inductive Clause where
  | titleContains (s : String)
  | descriptionContains (s : String)
  | userIdEquals (n : Option Int)
  | recurringContains (s : String)
  | priorityContains (s : String)
  | dueDateEquals (d : Nat)
  | createdAtEquals (d : Nat)
  deriving DecidableEq, Repr

/-- The Prisma `where` object sent by the list handlers: an optional exact
status equality and, when a search term is present, a disjunctive clause
list under `OR`. -/
structure FilterCond where
  statusEq : Option String
  orClauses : Option (List Clause)
  deriving DecidableEq, Repr

/-- The `conditions.OR` list built for a truthy search term in
`src/unnamed/part_005` lines 27-42 (and identically inline in
`src/unnamed/part_006` lines 37-48): title, description, userId, recurring,
priority — the `userId` clause is pushed unconditionally with
`Number(query.search)` — and the two date clauses only when
`new Date(query.search)` is valid. -/
def searchClauses (toNumber : String → Option Int)
    (parseDate : String → Option Nat) (s : String) : List Clause :=
  [.titleContains s, .descriptionContains s, .userIdEquals (toNumber s),
   .recurringContains s, .priorityContains s] ++
  (match parseDate s with
   | some d => [.dueDateEquals d, .createdAtEquals d]
   | none => [])

/-- `buildFilterConditions` of `src/unnamed/part_005` lines 19-46: a truthy
`status` gives an exact equality condition; a truthy `search` gives the `OR`
clause list; both present conjoin (one Prisma `where` object). -/
def buildFilterConditions (toNumber : String → Option Int)
    (parseDate : String → Option Nat) (status search : Option String) :
    FilterCond :=
  { statusEq := jsStr status,
    orClauses := (jsStr search).map (searchClauses toNumber parseDate) }

/-- Case-insensitive substring check over character lists: does the list
start with the needle? -/
def startsList : List Char → List Char → Bool
  | [], _ => true
  | _ :: _, [] => false
  | a :: as, b :: bs => a == b && startsList as bs

/-- Does `needle` occur contiguously inside the haystack? -/
def hasSubList (needle : List Char) : List Char → Bool
  | [] => needle.isEmpty
  | c :: cs => startsList needle (c :: cs) || hasSubList needle cs

/-- Prisma `contains … mode: 'insensitive'`: case-insensitive substring. -/
def ciContains (hay needle : String) : Bool :=
  hasSubList needle.toLower.toList hay.toLower.toList

/-- Store semantics of one clause on one task.  Prisma `equals: NaN`
(`userIdEquals none`) matches no record. -/
def matchesClause (t : Task) : Clause → Bool
  | .titleContains s => ciContains t.title s
  | .descriptionContains s => ciContains t.description s
  | .userIdEquals n =>
    match n with
    | some m => t.userId == m
    | none => false
  | .recurringContains s => ciContains t.recurring s
  | .priorityContains s => ciContains t.priority s
  | .dueDateEquals d => t.dueDate == some d
  | .createdAtEquals d => t.createdAt == d

/-- Store semantics of a `where` object: the status equality (when present)
AND the disjunction of the `OR` list (when present). -/
def matchesFilter (f : FilterCond) (t : Task) : Bool :=
  (match f.statusEq with
   | some st => t.status == st
   | none => true) &&
  (match f.orClauses with
   | some cs => cs.any (matchesClause t)
   | none => true)

/-- Modelled from the spec: the search disjunction as claim C6 and spec §4.4
word it — the `userId` equality clause is included "only if `search` parses
as a number".  Kept solely for comparison with `searchClauses`, which is
the embedding of the source. -/
def claimedSearchClauses (toNumber : String → Option Int)
    (parseDate : String → Option Nat) (s : String) : List Clause :=
  [.titleContains s, .descriptionContains s] ++
  (match toNumber s with
   | some n => [.userIdEquals (some n)]
   | none => []) ++
  [.recurringContains s, .priorityContains s] ++
  (match parseDate s with
   | some d => [.dueDateEquals d, .createdAtEquals d]
   | none => [])

/-- Modelled from the spec: the whole `where` object as claim C6 words it,
built from `claimedSearchClauses`. -/
def claimedFilter (toNumber : String → Option Int)
    (parseDate : String → Option Nat) (status search : Option String) :
    FilterCond :=
  { statusEq := jsStr status,
    orClauses := (jsStr search).map (claimedSearchClauses toNumber parseDate) }

/-! ## List query assembly and pagination (part_005 lines 49-70) -/

/-- Raw query parameters of a list request, after JavaScript numeric coercion
of `page`/`limit` (`?page=2` arrives as `some 2`). -/
structure ListQuery where
  status : Option String
  search : Option String
  sortBy : Option String
  order : Option String
  page : Option Int
  limit : Option Int
  deriving DecidableEq, Repr

/-- The query specification a list handler passes to
`prisma.task.findMany`. -/
structure QuerySpec where
  cond : FilterCond
  sortField : String
  sortOrder : String
  skip : Int
  take : Int
  deriving DecidableEq, Repr

/-- `const skip = (Number(page) - 1) * Number(limit)` — identical in all
three list-handler variants; no clamping of `page`. -/
def skipOf (page limit : Int) : Int := (page - 1) * limit

/-- `findMany` argument built by `getAllTasks` of `src/unnamed/part_005`
lines 54-59: the `buildFilterConditions` filter, the verbatim sort key,
`order` defaulting to `'asc'`, and `skip`/`take` from `page`/`limit` with
destructuring defaults 1 and 10. -/
def getAllTasksQuery (toNumber : String → Option Int)
    (parseDate : String → Option Nat) (q : ListQuery) : QuerySpec :=
  { cond := buildFilterConditions toNumber parseDate q.status q.search,
    sortField := sortFieldVerbatim q.sortBy,
    sortOrder := q.order.getD "asc",
    skip := skipOf (q.page.getD 1) (q.limit.getD 10),
    take := q.limit.getD 10 }

/-- `prisma.task.count({ where: buildFilterConditions(req.query) })` of
`src/unnamed/part_005` lines 61-63: the count uses the same filter as the
list query. -/
def totalTasksFiltered (toNumber : String → Option Int)
    (parseDate : String → Option Nat) (q : ListQuery) (store : List Task) :
    Nat :=
  (store.filter (matchesFilter (buildFilterConditions toNumber parseDate q.status q.search))).length

/-- `prisma.task.count()` of `src/backend/src/api/tasks.js` line 36: the
count there takes no `where` at all, so it is the size of the whole store
regardless of any active status filter. -/
def totalTasksUnfiltered (store : List Task) : Nat := store.length

/-- `Math.ceil(totalTasks / Number(limit))` for a positive integer limit. -/
def totalPagesOf (total limit : Nat) : Nat := (total + limit - 1) / limit

/-- `totalPages` reported by `getAllTasks` of `src/unnamed/part_005`
line 68. -/
def totalPagesFiltered (toNumber : String → Option Int)
    (parseDate : String → Option Nat) (q : ListQuery) (store : List Task) :
    Nat :=
  totalPagesOf (totalTasksFiltered toNumber parseDate q store)
    (q.limit.getD 10).toNat

/-! ## Theorems -/

/-- Claim C1: on DELETE `/api/tasks/:id`, a principal whose role is not
`ADMIN` is rejected by the role guard with HTTP 403 and the task store is
untouched; an `ADMIN` principal is passed through unchanged to the delete
handler. -/
theorem c1_delete_role_guard (p : Principal) (store : List Task) (id : Int) :
    (p.role ≠ "ADMIN" → deleteTaskRoute p store id = (403, store)) ∧
    (p.role = "ADMIN" → deleteTaskRoute p store id = deleteTask store id) := by
  constructor
  · intro h
    simp [deleteTaskRoute, h]
  · intro h
    simp [deleteTaskRoute, h]

/-- Concrete instance of C1: a USER principal deleting task 1 gets 403 with
the store intact; an ADMIN principal reaches the handler. -/
theorem c1_delete_role_guard_witness :
    deleteTaskRoute ⟨7, "A", "a@x.com", "USER"⟩
        [⟨1, "T", "d", none, "pending", "low", "none", 7, 0⟩] 1 =
      (403, [⟨1, "T", "d", none, "pending", "low", "none", 7, 0⟩]) ∧
    deleteTaskRoute ⟨7, "A", "a@x.com", "ADMIN"⟩
        [⟨1, "T", "d", none, "pending", "low", "none", 7, 0⟩] 1 =
      deleteTask [⟨1, "T", "d", none, "pending", "low", "none", 7, 0⟩] 1 := by
  exact ⟨(c1_delete_role_guard _ _ _).1 (by decide),
         (c1_delete_role_guard _ _ _).2 (by decide)⟩

/-- Claim C2: the auth middleware of auth.js answers 401 exactly when no
bearer token is extracted from the Authorization header; a present token
whose verification fails, or whose decoded userId has no user record,
yields 403. -/
theorem c2_auth_status_asymmetry (verify : String → Option TokenClaims)
    (store : List User) (header : Option String) :
    (authTokenAuth verify store header = .reject 401 ↔
      extractToken header = none) ∧
    (∀ tok, extractToken header = some tok →
      (verify tok = none → authTokenAuth verify store header = .reject 403) ∧
      (∀ c, verify tok = some c →
        store.find? (fun u => u.id == c.userId) = none →
        authTokenAuth verify store header = .reject 403)) := by
  constructor
  · cases h : extractToken header with
    | none => simp [authTokenAuth, h]
    | some tok =>
      simp only [authTokenAuth, h]
      cases hv : verify tok with
      | none => simp
      | some c =>
        cases hf : store.find? (fun u => u.id == c.userId) with
        | none => simp [hf]
        | some user => simp [hf]
  · intro tok htok
    constructor
    · intro hv
      simp [authTokenAuth, htok, hv]
    · intro c hv hf
      simp [authTokenAuth, htok, hv, hf]

/-- Concrete instance of C2: no header ⇒ 401; garbage token ⇒ 403; valid
token for a deleted user ⇒ 403. -/
theorem c2_auth_status_asymmetry_witness :
    authTokenAuth (fun _ => none) [] none = .reject 401 ∧
    authTokenAuth (fun _ => none) [] (some "Bearer junk") = .reject 403 ∧
    authTokenAuth (fun t => if t = "tok" then some ⟨5, "USER"⟩ else none) []
      (some "Bearer tok") = .reject 403 := by
  refine ⟨(c2_auth_status_asymmetry (fun _ => none) [] none).1.mpr (by decide),
    ((c2_auth_status_asymmetry (fun _ => none) [] (some "Bearer junk")).2
      "junk" (by decide)).1 rfl,
    ((c2_auth_status_asymmetry (fun t => if t = "tok" then some ⟨5, "USER"⟩ else none)
        [] (some "Bearer tok")).2 "tok" (by decide)).2 ⟨5, "USER"⟩ (by decide) rfl⟩

/-- Claim C8: verifying a token issued for `(u, r)` strictly before the
1-hour expiry returns exactly the claims `{userId: u, role: r}`; at or after
the boundary it fails with `Expired`. -/
theorem c8_token_roundtrip (secret : String) (u : Int) (r : String)
    (issuedAt now : Nat) :
    (now < issuedAt + 3600 →
      verifyToken secret (issueToken secret u r issuedAt) now = .ok ⟨u, r⟩) ∧
    (issuedAt + 3600 ≤ now →
      verifyToken secret (issueToken secret u r issuedAt) now =
        .error .expired) := by
  constructor
  · intro h
    simp [verifyToken, issueToken, Nat.not_le.mpr h]
  · intro h
    simp [verifyToken, issueToken, h]

/-- Concrete instance of C8: a token issued at time 0 verifies at time 3599
and is expired at time 3600. -/
theorem c8_token_roundtrip_witness :
    verifyToken "s" (issueToken "s" 1 "USER" 0) 3599 = .ok ⟨1, "USER"⟩ ∧
    verifyToken "s" (issueToken "s" 1 "USER" 0) 3600 = .error .expired := by
  exact ⟨(c8_token_roundtrip "s" 1 "USER" 0 3599).1 (by decide),
         (c8_token_roundtrip "s" 1 "USER" 0 3600).2 (by decide)⟩

/-- Claim C9: in both task-update variants, a field absent from the request
body keeps its previous value — absent never clears; in particular a body
carrying only `status` leaves title, description and priority unchanged. -/
theorem c9_partial_update (parseDate : String → Option Nat) (b : TaskBody)
    (t : Task) :
    (b.title = none → (applyUpdateExplicit parseDate b t).title = t.title ∧
      (applyUpdateSpread parseDate b t).title = t.title) ∧
    (b.description = none →
      (applyUpdateExplicit parseDate b t).description = t.description ∧
      (applyUpdateSpread parseDate b t).description = t.description) ∧
    (b.dueDate = none →
      (applyUpdateExplicit parseDate b t).dueDate = t.dueDate ∧
      (applyUpdateSpread parseDate b t).dueDate = t.dueDate) ∧
    (b.status = none → (applyUpdateExplicit parseDate b t).status = t.status ∧
      (applyUpdateSpread parseDate b t).status = t.status) ∧
    (b.recurring = none →
      (applyUpdateExplicit parseDate b t).recurring = t.recurring ∧
      (applyUpdateSpread parseDate b t).recurring = t.recurring) ∧
    (b.priority = none →
      (applyUpdateExplicit parseDate b t).priority = t.priority ∧
      (applyUpdateSpread parseDate b t).priority = t.priority) := by
  refine ⟨?_, ?_, ?_, ?_, ?_, ?_⟩ <;> intro h <;>
    simp [applyUpdateExplicit, applyUpdateSpread, jsOrStr, h]

/-- Concrete instance of C9: updating only `{status: "done"}` leaves title,
description and priority of the stored task unchanged in both variants. -/
theorem c9_partial_update_witness :
    (applyUpdateExplicit jsDate ⟨none, none, none, some "done", none, none⟩
      ⟨1, "T", "d", none, "pending", "low", "none", 7, 0⟩).title = "T" ∧
    (applyUpdateSpread jsDate ⟨none, none, none, some "done", none, none⟩
      ⟨1, "T", "d", none, "pending", "low", "none", 7, 0⟩).description = "d" ∧
    (applyUpdateExplicit jsDate ⟨none, none, none, some "done", none, none⟩
      ⟨1, "T", "d", none, "pending", "low", "none", 7, 0⟩).priority = "low" := by
  refine ⟨((c9_partial_update jsDate _ _).1 rfl).1,
    (((c9_partial_update jsDate _ _).2.1 rfl)).2,
    (((c9_partial_update jsDate _ _).2.2.2.2.2 rfl)).1⟩

/-- Claim C10: GET `/api/tasks/:id` answers 400 without touching the store
whenever the id is empty or non-numeric; the store is queried exactly when
the id is numeric, and a missing task then yields 404 with the store
unchanged. -/
theorem c10_get_task_by_id (toNumber : String → Option Int)
    (store : List Task) (idStr : String) :
    ((idStr = "" ∨ toNumber idStr = none) →
      getTaskById toNumber store idStr = (400, false, store)) ∧
    (∀ n, toNumber idStr = some n → idStr ≠ "" →
      (getTaskById toNumber store idStr).2.1 = true ∧
      (store.find? (fun t => t.id == n) = none →
        getTaskById toNumber store idStr = (404, true, store))) := by
  constructor
  · rintro (h | h)
    · simp [getTaskById, h]
    · by_cases he : idStr = ""
      · simp [getTaskById, he]
      · simp [getTaskById, he, h]
  · intro n hn he
    constructor
    · cases hf : store.find? (fun t => t.id == n) with
      | none => simp [getTaskById, he, hn, hf]
      | some t => simp [getTaskById, he, hn, hf]
    · intro hf
      simp [getTaskById, he, hn, hf]

/-- Concrete instance of C10: a non-numeric id gives 400 with no store query;
a numeric id for a missing task gives 404 with the store unchanged. -/
theorem c10_get_task_by_id_witness :
    getTaskById jsNumber [] "abc" = (400, false, []) ∧
    getTaskById jsNumber [] "3" = (404, true, []) := by
  exact ⟨(c10_get_task_by_id jsNumber [] "abc").1 (Or.inr (by decide)),
    ((c10_get_task_by_id jsNumber [] "3").2 3 (by decide) (by decide)).2 rfl⟩

/-- Claim C3 counterexample: a request authenticated by the profile.js
middleware, holding a token with role claim `ADMIN` for a user whose stored
role is `USER`, gets a principal whose role is the store's current value
(`USER`), not the token's claim — contradicting "never from the store's
current role value". -/
theorem c3_profile_role_from_store_cex :
    authTokenProfile (fun t => if t = "tok" then some ⟨1, "ADMIN"⟩ else none)
        [⟨1, "a@x.com", "h", "A", "USER"⟩] (some "Bearer tok") =
      .success ⟨1, "A", "a@x.com", "USER"⟩ ∧
    ("USER" : String) ≠ "ADMIN" := by
  exact ⟨by decide, by decide⟩

/-- Claim C3 (amended): on success, the auth middleware of auth.js builds the
principal with id, name and email from the fetched user record and role from
the token's decoded claim; the profile.js middleware instead attaches the
store record verbatim, so its principal's role is the store's current role. -/
theorem c3_principal_fields (verify : String → Option TokenClaims)
    (store : List User) (header : Option String) (tok : String)
    (decoded : TokenClaims) (user : User)
    (h1 : extractToken header = some tok) (h2 : verify tok = some decoded)
    (h3 : store.find? (fun u => u.id == decoded.userId) = some user) :
    authTokenAuth verify store header =
      .success ⟨user.id, user.name, user.email, decoded.role⟩ ∧
    authTokenProfile verify store header =
      .success ⟨user.id, user.name, user.email, user.role⟩ := by
  constructor
  · simp [authTokenAuth, h1, h2, h3]
  · simp [authTokenProfile, h1, h2, h3]

/-- Concrete instance of amended C3: the auth.js principal carries the token
role, the profile.js principal the stored role. -/
theorem c3_principal_fields_witness :
    authTokenAuth (fun t => if t = "tok" then some ⟨1, "ADMIN"⟩ else none)
        [⟨1, "a@x.com", "h", "A", "USER"⟩] (some "Bearer tok") =
      .success ⟨1, "A", "a@x.com", "ADMIN"⟩ ∧
    authTokenProfile (fun t => if t = "tok" then some ⟨1, "ADMIN"⟩ else none)
        [⟨1, "a@x.com", "h", "A", "USER"⟩] (some "Bearer tok") =
      .success ⟨1, "A", "a@x.com", "USER"⟩ := by
  exact c3_principal_fields
    (fun t => if t = "tok" then some ⟨1, "ADMIN"⟩ else none)
    [⟨1, "a@x.com", "h", "A", "USER"⟩] (some "Bearer tok") "tok"
    ⟨1, "ADMIN"⟩ ⟨1, "a@x.com", "h", "A", "USER"⟩
    (by decide) (by decide) (by decide)

/-- Claim C4 counterexample: the unauthenticated `register` endpoint persists
a caller-supplied `ADMIN` role verbatim (`role: role || 'USER'`), so role
elevation through registration is not rejected. -/
theorem c4_register_role_cex :
    (register (fun s => s)
      ⟨some "a@x.com", some "p", some "A", some "ADMIN"⟩ []).2 =
      [⟨1, "a@x.com", "p", "A", "ADMIN"⟩] := by
  decide

/-- Claim C4 (amended): role change through the profile role endpoint is
persisted only for an `ADMIN` caller — any other caller gets 403 and the
store is untouched — while registration persists whatever truthy role the
unauthenticated body supplies, defaulting to `USER` only when absent or
empty. -/
theorem c4_role_persistence (p : Principal) (store : List User)
    (newRole : String) (hash : String → String) (body : RegisterBody)
    (regStore : List User) :
    (p.role ≠ "ADMIN" → updateUserRole p store newRole = (403, store)) ∧
    (p.role = "ADMIN" →
      (updateUserRole p store newRole).1 = 200 ∧
      ∀ u ∈ (updateUserRole p store newRole).2, u.id = p.id →
        u.role = newRole) ∧
    (jsFalsy body.email = false → jsFalsy body.password = false →
      jsFalsy body.name = false →
      ∃ newUser, (register hash body regStore).2 = regStore ++ [newUser] ∧
        newUser.role = jsOrStr body.role "USER") := by
  refine ⟨?_, ?_, ?_⟩
  · intro h
    simp [updateUserRole, h]
  · intro h
    constructor
    · simp [updateUserRole, h]
    · intro u hu hid
      simp only [updateUserRole, h, ne_eq, not_true_eq_false, if_false,
        List.mem_map] at hu
      obtain ⟨v, hv, rfl⟩ := hu
      by_cases hvid : v.id == p.id
      · simp [hvid]
      · simp only [hvid, if_false] at hid ⊢
        exact absurd (beq_iff_eq.mpr hid) (by simpa using hvid)
  · intro he hp hn
    refine ⟨{ id := (regStore.length : Int) + 1, email := body.email.getD "",
              password := hash (body.password.getD ""),
              name := body.name.getD "",
              role := jsOrStr body.role "USER" }, ?_, rfl⟩
    simp [register, he, hp, hn]

/-- Concrete instance of amended C4: a USER caller's role update is rejected
with the store intact; an ADMIN caller's is persisted; registration with a
supplied role stores it. -/
theorem c4_role_persistence_witness :
    updateUserRole ⟨1, "A", "a@x.com", "USER"⟩
        [⟨1, "a@x.com", "h", "A", "USER"⟩] "ADMIN" =
      (403, [⟨1, "a@x.com", "h", "A", "USER"⟩]) ∧
    (updateUserRole ⟨1, "A", "a@x.com", "ADMIN"⟩
        [⟨1, "a@x.com", "h", "A", "USER"⟩] "ADMIN").1 = 200 ∧
    (∃ newUser,
      (register (fun s => s) ⟨some "b@x.com", some "p", some "B", some "ADMIN"⟩
        []).2 = [] ++ [newUser] ∧
      newUser.role = jsOrStr (some "ADMIN") "USER") := by
  exact ⟨(c4_role_persistence ⟨1, "A", "a@x.com", "USER"⟩ _ "ADMIN"
      (fun s => s) ⟨some "b@x.com", some "p", some "B", some "ADMIN"⟩ []).1
      (by decide),
    ((c4_role_persistence ⟨1, "A", "a@x.com", "ADMIN"⟩
        [⟨1, "a@x.com", "h", "A", "USER"⟩] "ADMIN" (fun s => s)
        ⟨some "b@x.com", some "p", some "B", some "ADMIN"⟩ []).2.1 rfl).1,
    (c4_role_persistence ⟨1, "A", "a@x.com", "ADMIN"⟩ [] "ADMIN" (fun s => s)
      ⟨some "b@x.com", some "p", some "B", some "ADMIN"⟩ []).2.2
      rfl rfl rfl⟩

/-- Claim C5 counterexample: the part_005 list handler forwards an
unrecognized `sortBy` value (`"bogus"`, outside the allow-list) verbatim to
the store, and the tasks.js handler maps the allow-listed value `"priority"`
to `createdAt` instead of forwarding it. -/
theorem c5_sort_allowlist_cex :
    sortFieldVerbatim (some "bogus") = "bogus" ∧
    "bogus" ∉ ["dueDate", "createdAt", "status", "userId", "recurring",
      "priority"] ∧
    sortFieldThree (some "priority") = "createdAt" := by
  exact ⟨rfl, by decide, by decide⟩

/-- Claim C5 (amended): the sort field sent to the store depends on the
list-handler variant — part_006 applies the six-element allow-list with
fallback `createdAt`; tasks.js applies a three-element allow-list
(`dueDate`, `createdAt`, `status`) so the other three recognized names also
fall back to `createdAt`; part_005 forwards any present `sortBy` verbatim
and defaults to `createdAt` only when it is absent. -/
theorem c5_sort_fields (s : String) :
    (sortFieldFull (some s) =
      if s ∈ ["dueDate", "createdAt", "status", "userId", "recurring",
        "priority"] then s else "createdAt") ∧
    sortFieldFull none = "createdAt" ∧
    (sortFieldThree (some s) =
      if s ∈ ["dueDate", "createdAt", "status"] then s else "createdAt") ∧
    sortFieldThree none = "createdAt" ∧
    sortFieldVerbatim (some s) = s ∧
    sortFieldVerbatim none = "createdAt" := by
  refine ⟨?_, by decide, ?_, by decide, rfl, rfl⟩
  · by_cases h1 : s = "dueDate"
    · subst h1; decide
    by_cases h2 : s = "createdAt"
    · subst h2; decide
    by_cases h3 : s = "status"
    · subst h3; decide
    by_cases h4 : s = "userId"
    · subst h4; decide
    by_cases h5 : s = "recurring"
    · subst h5; decide
    by_cases h6 : s = "priority"
    · subst h6; decide
    simp [sortFieldFull, orderOptionsFull, List.lookup, jsOrStr,
      h1, h2, h3, h4, h5, h6, beq_eq_false_iff_ne.mpr h1,
      beq_eq_false_iff_ne.mpr h2, beq_eq_false_iff_ne.mpr h3,
      beq_eq_false_iff_ne.mpr h4, beq_eq_false_iff_ne.mpr h5,
      beq_eq_false_iff_ne.mpr h6]
  · by_cases h1 : s = "dueDate"
    · subst h1; decide
    by_cases h2 : s = "createdAt"
    · subst h2; decide
    by_cases h3 : s = "status"
    · subst h3; decide
    simp [sortFieldThree, orderOptionsThree, List.lookup, jsOrStr,
      h1, h2, h3, beq_eq_false_iff_ne.mpr h1, beq_eq_false_iff_ne.mpr h2,
      beq_eq_false_iff_ne.mpr h3]

/-- Claim C6 counterexample: for the search term `"abc"`, which does not
parse as a number, the `where` object built by `buildFilterConditions` still
contains a `userId` equality clause (carrying `Number("abc")`, i.e. `NaN`),
whereas the claim's filter omits the `userId` clause when the term is
non-numeric — the two objects differ. -/
theorem c6_userid_clause_cex :
    buildFilterConditions jsNumber jsDate none (some "abc") ≠
    claimedFilter jsNumber jsDate none (some "abc") := by
  decide

/-- Claim C6 (amended): the `userId: { equals: Number(search) }` clause is
pushed unconditionally, but `equals: NaN` matches no record, so the filter
sent to the store matches exactly the tasks matched by the claimed filter —
the OR of case-insensitive substring matches on title, description,
recurring, priority, numeric userId equality only when the term parses as a
number, and dueDate/createdAt equality only when it parses as a date, all
conjoined with the status equality when present. -/
theorem c6_filter_semantics (toNumber : String → Option Int)
    (parseDate : String → Option Nat) (status search : Option String)
    (t : Task) :
    matchesFilter (buildFilterConditions toNumber parseDate status search) t =
    matchesFilter (claimedFilter toNumber parseDate status search) t := by
  unfold matchesFilter buildFilterConditions claimedFilter
  cases hs : jsStr search with
  | none => rfl
  | some s =>
    simp only [Option.map_some']
    congr 1
    unfold searchClauses claimedSearchClauses
    cases hn : toNumber s with
    | some n =>
      cases hp : parseDate s <;> rfl
    | none =>
      cases hp : parseDate s <;>
        simp [List.any_append, List.any_cons, matchesClause]

/-- Claim C7 counterexample: with `page=0, limit=10` the skip sent to the
store is `(0 - 1) * 10 = -10`, while the claim's formula
`(max(page,1) - 1) * limit` gives `0` — the code does not clamp. -/
theorem c7_pagination_clamp_cex :
    (getAllTasksQuery jsNumber jsDate
      ⟨none, none, none, none, some 0, some 10⟩).skip = -10 ∧
    (max (0 : Int) 1 - 1) * 10 = 0 ∧ (-10 : Int) ≠ 0 := by
  refine ⟨by decide, by decide, by decide⟩

/-- Ceiling characterization of `totalPagesOf`: for a positive page size it
is the least page count covering all matching tasks. -/
theorem totalPagesOf_ceil (total limit : Nat) (hL : 0 < limit) :
    total ≤ totalPagesOf total limit * limit ∧
    totalPagesOf total limit * limit < total + limit := by
  unfold totalPagesOf
  have h1 := Nat.div_add_mod (total + limit - 1) limit
  have h2 := Nat.mod_lt (total + limit - 1) hL
  rw [Nat.mul_comm ((total + limit - 1) / limit) limit]
  omega

/-- Claim C7 (amended): pagination uses `skip = (page - 1) * limit` and
`take = limit` with defaults page=1, limit=10 and no clamping of `page`;
`totalPages` is `ceil(totalTasks / limit)` — characterized as the least page
count covering `totalTasks` — where `totalTasks` counts the records matching
the same filter as the list query in the part_005/part_006 variants, while
the tasks.js variant counts the whole store unfiltered; the instance page=2,
limit=5 over 12 matching tasks yields skip=5, take=5, totalPages=3. -/
theorem c7_pagination (toNumber : String → Option Int)
    (parseDate : String → Option Nat) (q : ListQuery) (store : List Task)
    (limit : Nat) (hL : 0 < limit) (hlim : q.limit = some (limit : Int)) :
    (getAllTasksQuery toNumber parseDate q).skip =
      (q.page.getD 1 - 1) * (limit : Int) ∧
    (getAllTasksQuery toNumber parseDate q).take = (limit : Int) ∧
    totalTasksUnfiltered store = store.length ∧
    totalTasksFiltered toNumber parseDate q store ≤
      totalPagesFiltered toNumber parseDate q store * limit ∧
    totalPagesFiltered toNumber parseDate q store * limit <
      totalTasksFiltered toNumber parseDate q store + limit ∧
    skipOf 2 5 = 5 ∧ totalPagesOf 12 5 = 3 := by
  have hpages : totalPagesFiltered toNumber parseDate q store =
      totalPagesOf (totalTasksFiltered toNumber parseDate q store) limit := by
    simp [totalPagesFiltered, hlim]
  refine ⟨?_, ?_, rfl, ?_, ?_, by decide, by decide⟩
  · simp [getAllTasksQuery, skipOf, hlim]
  · simp [getAllTasksQuery, hlim]
  · rw [hpages]
    exact (totalPagesOf_ceil _ limit hL).1
  · rw [hpages]
    exact (totalPagesOf_ceil _ limit hL).2

/-- Concrete instance of amended C7: page=2, limit=5 gives skip=5 and take=5,
and 12 matching tasks over page size 5 give 3 pages. -/
theorem c7_pagination_witness :
    (getAllTasksQuery jsNumber jsDate
      ⟨none, none, none, none, some 2, some 5⟩).skip = 5 ∧
    (getAllTasksQuery jsNumber jsDate
      ⟨none, none, none, none, some 2, some 5⟩).take = 5 ∧
    totalPagesOf 12 5 = 3 := by
  have h := c7_pagination jsNumber jsDate
    ⟨none, none, none, none, some 2, some 5⟩ [] 5 (by decide) rfl
  exact ⟨by rw [h.1]; decide, by rw [h.2.1]; decide, h.2.2.2.2.2.2⟩

end Taskmgmt
